import Mathlib

/-
  Verification development for a Telegram e-mail bot (single source file
  main.py).  The data model and operations below are a shallow embedding of
  the Python source: redis is modelled as explicit state values, the Fernet
  cipher is modelled by its contract (an authenticated token that records
  the key it was produced under), and exception-based control flow becomes
  Except / Option results.
-/

namespace MailBot

/-- Errors raised by the cipher layer (cryptography.fernet.InvalidToken). -/
inductive CryptoError
  | invalidToken
deriving DecidableEq

/-- A Fernet ciphertext, modelled by its contract: a well-formed token
    remembers the key it was produced under and its payload; decryption
    under any other key fails HMAC verification.  A malformed byte string
    is the other failing shape. -/
inductive Ciphertext
  | token (key : Nat) (data : String)
  | malformed (raw : String)
deriving DecidableEq

/-- Fernet encryption under a concrete key. -/
def fernetEncrypt (key : Nat) (s : String) : Ciphertext :=
  .token key s

/-- Fernet decryption: succeeds exactly on a well-formed token produced
    under the same key; otherwise raises InvalidToken. -/
def fernetDecrypt (key : Nat) : Ciphertext → Except CryptoError String
  | .token k d => if k = key then .ok d else .error .invalidToken
  | .malformed _ => .error .invalidToken

/-- main.py encrypt_data: wraps cipher_suite.encrypt and re-raises
    InvalidToken after logging, so it is the cipher call itself. -/
def encrypt_data (key : Nat) (s : String) : Ciphertext :=
  fernetEncrypt key s

/-- main.py decrypt_data: wraps cipher_suite.decrypt and re-raises
    InvalidToken after logging. -/
def decrypt_data (key : Nat) (c : Ciphertext) : Except CryptoError String :=
  fernetDecrypt key c

/-- The persistent-store slot holding the fernet key
    (redis key fernet_key in main.py). -/
structure KeyStore where
  fernetKey : Option Nat
deriving DecidableEq

/-- main.py setup_encryption: (a) return the persisted key if present;
    (b) else return the environment-supplied key without persisting it;
    (c) else generate a fresh key, persist it and return it.  The fresh
    key a generation would produce is passed in explicitly. -/
def setup_encryption (envKey : Option Nat) (freshKey : Nat) (st : KeyStore) :
    Nat × KeyStore :=
  match st.fernetKey with
  | some k => (k, st)
  | none =>
    match envKey with
    | some e => (e, st)
    | none => (freshKey, { st with fernetKey := some freshKey })

/-- The raw per-user redis hash user:ID:email_config: every field is an
    optional stored value, exactly as hgetall returns it. -/
structure RawConfig where
  smtp_server : Option String := none
  smtp_port : Option String := none
  imap_server : Option String := none
  imap_port : Option String := none
  email : Option Ciphertext := none
  password : Option Ciphertext := none
  mode : Option String := none
deriving DecidableEq

/-- The decoded configuration dict built by main.py get_user_config. -/
structure UserConfig where
  smtp_server : String
  smtp_port : Int
  imap_server : String
  imap_port : Int
  email : Option String
  password : Option String
  mode : String
deriving DecidableEq

/-- The exceptions the body of get_user_config can raise. -/
inductive ConfigError
  | decryptionError
  | valueError
deriving DecidableEq

/-- Accumulator pass over decimal digits; any non-digit character makes
    the whole parse fail. -/
def digitsToNatAux : List Char → Nat → Option Nat
  | [], acc => some acc
  | c :: cs, acc =>
    if c.isDigit then digitsToNatAux cs (acc * 10 + (c.toNat - 48))
    else none

/-- The int() conversion of Python on decimal text, embedded structurally:
    an optional leading minus sign followed by at least one digit;
    anything else raises ValueError (modelled as none). -/
def parseIntText (s : String) : Option Int :=
  match s.data with
  | [] => none
  | '-' :: rest =>
    match rest with
    | [] => none
    | _ => (digitsToNatAux rest 0).map (fun n => -(n : Int))
  | l => (digitsToNatAux l 0).map (fun n => (n : Int))

/-- int(config.get(field, 0)): missing field defaults to 0, a present
    field is parsed and raises ValueError on non-numeric text. -/
def parseStoredInt (field : Option String) : Except ConfigError Int :=
  match field with
  | none => .ok 0
  | some s =>
    match parseIntText s with
    | some n => .ok n
    | none => .error .valueError

/-- decrypt_data(config.get(field)) if config.get(field) else None. -/
def decryptField (key : Nat) (field : Option Ciphertext) :
    Except ConfigError (Option String) :=
  match field with
  | none => .ok none
  | some c =>
    match decrypt_data key c with
    | .ok s => .ok (some s)
    | .error _ => .error .decryptionError

/-- The body of main.py get_user_config after the hash was found:
    builds the decoded dict, raising on bad ports or bad ciphertext. -/
def getUserConfigCore (key : Nat) (raw : RawConfig) :
    Except ConfigError UserConfig := do
  let smtpPort ← parseStoredInt raw.smtp_port
  let imapPort ← parseStoredInt raw.imap_port
  let emailField ← decryptField key raw.email
  let passwordField ← decryptField key raw.password
  pure { smtp_server := raw.smtp_server.getD ""
         smtp_port := smtpPort
         imap_server := raw.imap_server.getD ""
         imap_port := imapPort
         email := emailField
         password := passwordField
         mode := raw.mode.getD "" }

/-- hgetall over the per-user config records. -/
def lookupRaw (store : List (Int × RawConfig)) (uid : Int) : Option RawConfig :=
  (store.find? (fun p => p.1 = uid)).map (fun p => p.2)

/-- main.py get_user_config: returns None for a missing record, and the
    surrounding except-Exception handler logs any error raised by the body
    and returns None as well. -/
def get_user_config (key : Nat) (store : List (Int × RawConfig)) (uid : Int) :
    Option UserConfig :=
  match lookupRaw store uid with
  | none => none
  | some raw =>
    match getUserConfigCore key raw with
    | .ok c => some c
    | .error _ => none

/-- redis GET of a stats counter: None when the counter was never set. -/
def statLookup (stats : String → Option Nat) (m : String) : Option Nat :=
  stats m

/-- redis INCR on a counter key: a missing counter starts from 0. -/
def redisIncr (stats : String → Option Nat) (m : String) :
    String → Option Nat :=
  fun x => if x = m then some ((stats m).getD 0 + 1) else stats x

/-- The INCR round trip inside track_stat, which can raise when the store
    is unreachable. -/
def redisIncrOp (storeOk : Bool) (stats : String → Option Nat) (m : String) :
    Except String (String → Option Nat) :=
  if storeOk then .ok (redisIncr stats m) else .error "connection error"

/-- main.py track_stat: the INCR is wrapped in try/except; a failure is
    logged and the stats are simply left unchanged, nothing is raised. -/
def track_stat (storeOk : Bool) (stats : String → Option Nat) (m : String) :
    String → Option Nat :=
  match redisIncrOp storeOk stats m with
  | .ok s => s
  | .error _ => stats

/-- redis_client.get(counter) or 0: unknown metrics read as 0. -/
def readStat (stats : String → Option Nat) (m : String) : Nat :=
  (statLookup stats m).getD 0

/-- An e-mail attachment; the binary payload is modelled by its size in
    bytes, which is all the claims inspect, and is carried unchanged into
    the composed message part. -/
structure Attachment where
  filename : String
  size : Nat
deriving DecidableEq

/-- Total byte size of an attachment set. -/
def attachmentsTotalSize (atts : List Attachment) : Nat :=
  (atts.map (fun a => a.size)).sum

/-- main.py line 26: MAX_ATTACHMENT_SIZE = 20 * 1024 * 1024. -/
def MAX_ATTACHMENT_SIZE : Nat := 20 * 1024 * 1024

/-- The multipart message send_email composes and hands to the server. -/
structure MimeMessage where
  fromAddr : Option String
  toAddr : String
  subject : String
  body : String
  attachmentParts : List Attachment
deriving DecidableEq

/-- Outcome of the SMTP session block (connect, starttls, login, send),
    decided by the network and the server. -/
inductive SmtpOutcome
  | delivered
  | connectFailure
  | authFailure
deriving DecidableEq

/-- Errors a send_email call can surface. -/
inductive SendError
  | notConfigured
  | smtpConnect
  | smtpAuth
deriving DecidableEq

/-- Message composition in send_email: From is the decrypted e-mail
    address, one plain-text body part, one part per attachment. -/
def buildMessage (config : UserConfig) (recipient subject body : String)
    (attachments : List Attachment) : MimeMessage :=
  { fromAddr := config.email
    toAddr := recipient
    subject := subject
    body := body
    attachmentParts := attachments }

/-- main.py send_email: load the user config, raise "SMTP not configured"
    when it is missing or its smtp_server is empty, compose the multipart
    message, run the SMTP session, and on success bump emails_sent.
    Returns the transmitted message (or the error) with the stats state. -/
def send_email (smtp : SmtpOutcome) (key : Nat)
    (store : List (Int × RawConfig)) (stats : String → Option Nat)
    (uid : Int) (recipient subject body : String) (attachments : List Attachment) :
    Except SendError MimeMessage × (String → Option Nat) :=
  match get_user_config key store uid with
  | none => (.error .notConfigured, stats)
  | some config =>
    if config.smtp_server = "" then
      (.error .notConfigured, stats)
    else
      let msg := buildMessage config recipient subject body attachments
      match smtp with
      | .connectFailure => (.error .smtpConnect, stats)
      | .authFailure => (.error .smtpAuth, stats)
      | .delivered => (.ok msg, track_stat true stats "emails_sent")

/-- A concrete configured raw record used by closed theorems below:
    user credentials encrypted under key 1, mode set as the commit writes
    it. -/
def rawConfigured : RawConfig :=
  { smtp_server := some "smtp.example.com"
    smtp_port := some "587"
    imap_server := some "imap.example.com"
    imap_port := some "993"
    email := some (encrypt_data 1 "a@example.com")
    password := some (encrypt_data 1 "secret")
    mode := some "configured" }

/-- Like rawConfigured but with no mode field set. -/
def rawNoMode : RawConfig :=
  { rawConfigured with mode := none }

/-- Like rawConfigured but with the e-mail ciphertext produced under a
    different key (key 2 instead of key 1). -/
def rawForeignKey : RawConfig :=
  { rawConfigured with email := some (encrypt_data 2 "a@example.com") }

/-- An empty stats state: no counter has ever been written. -/
def stats0 : String → Option Nat := fun _ => none

end MailBot

namespace MailBot

/-
  Conversation State Machine.  The multi-step configure flow of the
  repository is not part of the source file at hand (only its start and
  admin handlers are), so it is modelled from the spec below.
-/

/-- Modelled from the spec: the per-user conversation states of section
    4.3 (the source file does not contain the configure-flow handlers). -/
inductive ConvState
  | idle
  | awaitingSmtpServer
  | awaitingSmtpPort
  | awaitingImapServer
  | awaitingImapPort
  | awaitingEmail
  | awaitingPassword
deriving DecidableEq

/-- Modelled from the spec: the transient PendingSetup draft accumulating
    the entered fields; ports keep their validated text form as entered. -/
structure PendingSetup where
  smtp_server : Option String := none
  smtp_port : Option String := none
  imap_server : Option String := none
  imap_port : Option String := none
  email : Option String := none
deriving DecidableEq

/-- Modelled from the spec: port validation — a port must parse as a
    positive integer, otherwise the input is rejected. -/
def parsePort (s : String) : Option Int :=
  match parseIntText s with
  | some n => if 0 < n then some n else none
  | none => none

/-- Modelled from the spec: Config Store put of section 4.2 — encrypts
    e-mail and password, writes mode = configured, overwrites any prior
    record for the user entirely. -/
def put_config (key : Nat) (store : List (Int × RawConfig)) (uid : Int)
    (smtpServer smtpPortText imapServer imapPortText emailAddr pw : String) :
    List (Int × RawConfig) :=
  (uid,
    { smtp_server := some smtpServer
      smtp_port := some smtpPortText
      imap_server := some imapServer
      imap_port := some imapPortText
      email := some (encrypt_data key emailAddr)
      password := some (encrypt_data key pw)
      mode := some "configured" }) ::
    store.filter (fun p => p.1 ≠ uid)

/-- Modelled from the spec: the session of one user — conversation state,
    PendingSetup record (absent outside a session), and the Config Store. -/
structure SessionState where
  conv : ConvState
  pending : Option PendingSetup
  store : List (Int × RawConfig)
deriving DecidableEq

/-- Modelled from the spec: starting the configure flow creates an empty
    PendingSetup and moves to the first awaiting state. -/
def startConfigure (st : SessionState) : SessionState :=
  { st with conv := .awaitingSmtpServer, pending := some {} }

/-- Modelled from the spec: one input step of the Conversation State
    Machine.  Each state accepts exactly one field; an invalid port
    re-prompts without advancing or mutating PendingSetup; the final
    password input triggers the Committing transition, which writes the
    encrypted config, deletes PendingSetup and returns to Idle. -/
def smStep (key : Nat) (uid : Int) (st : SessionState) (input : String) :
    SessionState :=
  match st.conv, st.pending with
  | .awaitingSmtpServer, some p =>
    { st with conv := .awaitingSmtpPort
              pending := some { p with smtp_server := some input } }
  | .awaitingSmtpPort, some p =>
    match parsePort input with
    | some _ =>
      { st with conv := .awaitingImapServer
                pending := some { p with smtp_port := some input } }
    | none => st
  | .awaitingImapServer, some p =>
    { st with conv := .awaitingImapPort
              pending := some { p with imap_server := some input } }
  | .awaitingImapPort, some p =>
    match parsePort input with
    | some _ =>
      { st with conv := .awaitingEmail
                pending := some { p with imap_port := some input } }
    | none => st
  | .awaitingEmail, some p =>
    { st with conv := .awaitingPassword
              pending := some { p with email := some input } }
  | .awaitingPassword, some p =>
    { conv := .idle
      pending := none
      store := put_config key st.store uid (p.smtp_server.getD "")
        (p.smtp_port.getD "") (p.imap_server.getD "")
        (p.imap_port.getD "") (p.email.getD "") input }
  | _, _ => st

/-- Modelled from the spec: driving the machine through a list of inputs. -/
def runInputs (key : Nat) (uid : Int) (st : SessionState)
    (inputs : List String) : SessionState :=
  inputs.foldl (smStep key uid) st

/-
  Administrative handlers (present in the source file).
-/

/-- A user-visible or logged effect of an admin handler. -/
inductive BotAction
  | respondText (msg : String)
  | respondFile
  | logLine (msg : String)
deriving DecidableEq

/-- main.py logs_handler: non-admins get an Unauthorized reply and nothing
    else happens; for admins the log file is sent (a read failure is
    caught, logged, and produces no user reply since user_msg is None). -/
def logs_handler (adminIds : List Int) (senderId : Int) (logReadable : Bool) :
    List BotAction :=
  if senderId ∈ adminIds then
    if logReadable then
      [.respondFile, .logLine ("Admin " ++ toString senderId ++ " downloaded logs")]
    else
      [.logLine "Logs error"]
  else
    [.respondText "⛔ Unauthorized"]

/-- The statistics message users_handler composes. -/
def usersStatsMessage (totalUsers activeToday emailsSent : Nat) : String :=
  "Total Users: " ++ toString totalUsers ++
    ", Emails Sent: " ++ toString emailsSent ++
    ", Active Today: " ++ toString activeToday

/-- main.py users_handler: non-admins get an Unauthorized reply and no
    statistics are gathered or reported; admins get the aggregate stats
    (configured-user count, emails_sent and users_active counters, each
    defaulting to 0). -/
def users_handler (adminIds : List Int) (senderId : Int)
    (store : List (Int × RawConfig)) (stats : String → Option Nat) :
    List BotAction :=
  if senderId ∈ adminIds then
    [.respondText (usersStatsMessage store.length
      (readStat stats "users_active") (readStat stats "emails_sent"))]
  else
    [.respondText "⛔ Unauthorized"]

end MailBot

namespace MailBot

/-- Helper: a successfully validated port text parses to its integer. -/
theorem parsePort_toInt {s : String} {n : Int} (h : parsePort s = some n) :
    parseIntText s = some n := by
  unfold parsePort at h
  cases hs : parseIntText s with
  | none => rw [hs] at h; exact Option.noConfusion h
  | some m =>
    rw [hs] at h
    by_cases hm : 0 < m
    · simp [hm] at h
      rw [h]
    · simp [hm] at h

/-- Claim C5: decrypting an encryption of s under the same key returns s,
    and decrypting under a different key fails with InvalidToken and never
    returns a value. -/
theorem c5_roundtrip_and_key_mismatch (k k' : Nat) (s : String) (h : k ≠ k') :
    decrypt_data k (encrypt_data k s) = .ok s ∧
    decrypt_data k' (encrypt_data k s) = .error .invalidToken := by
  constructor
  · simp [decrypt_data, encrypt_data, fernetDecrypt, fernetEncrypt]
  · simp [decrypt_data, encrypt_data, fernetDecrypt, fernetEncrypt, h]

theorem c5_witness :
    (1 : Nat) ≠ 2 ∧
    (decrypt_data 1 (encrypt_data 1 "secret") = .ok "secret" ∧
     decrypt_data 2 (encrypt_data 1 "secret") = .error .invalidToken) :=
  ⟨by decide, c5_roundtrip_and_key_mismatch 1 2 "secret" (by decide)⟩

/-- Claim C7: setup_encryption is idempotent — for a fixed environment,
    whatever source establishes the key on the first call, a second call
    on the resulting store state returns the same key, even if a fresh
    generation would now produce different bytes. -/
theorem c7_setup_encryption_idempotent (envKey : Option Nat) (g1 g2 : Nat)
    (st : KeyStore) :
    (setup_encryption envKey g2 (setup_encryption envKey g1 st).2).1 =
      (setup_encryption envKey g1 st).1 := by
  cases h : st.fernetKey <;> cases envKey <;> simp [setup_encryption, h]

/-- Claim C10: when the store holds no key and an environment key is
    present, setup_encryption returns the environment key but never writes
    it to the store; a later run without the environment variable then
    establishes a key that differs from the environment key. -/
theorem c10_env_key_not_persisted (st : KeyStore) (e g : Nat)
    (h1 : st.fernetKey = none) (hg : g ≠ e) :
    setup_encryption (some e) g st = (e, st) ∧
    (setup_encryption none g (setup_encryption (some e) g st).2).1 = g ∧
    (setup_encryption none g (setup_encryption (some e) g st).2).1 ≠ e := by
  refine ⟨?_, ?_, ?_⟩ <;> simp [setup_encryption, h1, hg]

theorem c10_witness :
    (KeyStore.mk none).fernetKey = none ∧ (2 : Nat) ≠ 1 ∧
    (setup_encryption (some 1) 2 (KeyStore.mk none) = (1, KeyStore.mk none) ∧
     (setup_encryption none 2
        (setup_encryption (some 1) 2 (KeyStore.mk none)).2).1 = 2 ∧
     (setup_encryption none 2
        (setup_encryption (some 1) 2 (KeyStore.mk none)).2).1 ≠ 1) :=
  ⟨rfl, by decide, c10_env_key_not_persisted (KeyStore.mk none) 1 2 rfl (by decide)⟩

/-- Claim C8: a failure of the backing store while recording an increment
    is raised inside track_stat but never propagates out of it — the stats
    are returned unchanged instead of an error surfacing to the measured
    operation — and reading a metric that was never recorded returns 0. -/
theorem c8_stat_isolation (stats : String → Option Nat) (m m' : String)
    (h : statLookup stats m' = none) :
    (redisIncrOp false stats m).isOk = false ∧
    track_stat false stats m = stats ∧
    readStat stats m' = 0 := by
  refine ⟨rfl, rfl, ?_⟩
  simp [readStat, h]

theorem c8_witness :
    statLookup stats0 "unknown_metric" = none ∧
    ((redisIncrOp false stats0 "emails_sent").isOk = false ∧
     track_stat false stats0 "emails_sent" = stats0 ∧
     readStat stats0 "unknown_metric" = 0) :=
  ⟨rfl, c8_stat_isolation stats0 "emails_sent" "unknown_metric" rfl⟩

/-- Claim C9: an administrative request (log retrieval or statistics)
    whose sender is not in the admin allow-list gets only the Unauthorized
    reply — no log file is sent and no statistics message is produced. -/
theorem c9_admin_gate (adminIds : List Int) (senderId : Int)
    (logReadable : Bool) (store : List (Int × RawConfig))
    (stats : String → Option Nat) (h : senderId ∉ adminIds) :
    logs_handler adminIds senderId logReadable =
      [.respondText "⛔ Unauthorized"] ∧
    users_handler adminIds senderId store stats =
      [.respondText "⛔ Unauthorized"] := by
  constructor <;> simp [logs_handler, users_handler, h]

theorem c9_witness :
    (99 : Int) ∉ ([1, 2] : List Int) ∧
    (logs_handler [1, 2] 99 true = [.respondText "⛔ Unauthorized"] ∧
     users_handler [1, 2] 99 [] stats0 = [.respondText "⛔ Unauthorized"]) :=
  ⟨by decide, c9_admin_gate [1, 2] 99 true [] stats0 (by decide)⟩

end MailBot

namespace MailBot

/-- Claim C2 is refuted at a concrete input: for a stored record whose
    e-mail ciphertext was produced under key 2 while the active key is 1,
    the body of get_user_config raises DecryptionError, yet the caller of
    get_user_config observes absent (None) — the error is not propagated. -/
theorem c2_counterexample :
    getUserConfigCore 1 rawForeignKey = .error .decryptionError ∧
    get_user_config 1 [(7, rawForeignKey)] 7 = none := by
  exact ⟨rfl, rfl⟩

/-- Claim C2 as amended: when the stored record of a user decodes with a
    DecryptionError (malformed or foreign-keyed ciphertext), get_user_config
    catches the error, logs it, and returns absent (None) instead of
    propagating it. -/
theorem c2_decryption_error_swallowed (key : Nat)
    (store : List (Int × RawConfig)) (uid : Int) (raw : RawConfig)
    (h1 : lookupRaw store uid = some raw)
    (h2 : getUserConfigCore key raw = .error .decryptionError) :
    get_user_config key store uid = none := by
  simp [get_user_config, h1, h2]

theorem c2_witness :
    (lookupRaw [(8, rawForeignKey)] 8 = some rawForeignKey ∧
     getUserConfigCore 1 rawForeignKey = .error .decryptionError) ∧
    get_user_config 1 [(8, rawForeignKey)] 8 = none :=
  ⟨⟨rfl, rfl⟩, c2_decryption_error_swallowed 1 [(8, rawForeignKey)] 8
    rawForeignKey rfl rfl⟩

/-- Claim C3 is refuted at a concrete input: user 42 has a stored config
    whose mode field is absent (so mode decodes to the empty string, not
    configured), yet send_email does not fail with the not-configured
    error — it proceeds to the SMTP session and succeeds. -/
theorem c3_counterexample :
    ((get_user_config 1 [(42, rawNoMode)] 42).map UserConfig.mode = some "" ∧
      ("" : String) ≠ "configured") ∧
    (send_email .delivered 1 [(42, rawNoMode)] stats0 42 "b@example.com"
        "Hi" "body" []).1.isOk = true := by
  exact ⟨⟨rfl, by decide⟩, rfl⟩

/-- Claim C3 as amended: send_email fails with the not-configured error
    before any SMTP interaction exactly when no config record is readable
    for the user or the stored smtp_server is empty; the mode field is not
    consulted.  On this failure the result does not depend on the SMTP
    outcome and the stats (hence the emails_sent counter) are unchanged. -/
theorem c3_not_configured_guard (smtp : SmtpOutcome) (key : Nat)
    (store : List (Int × RawConfig)) (stats : String → Option Nat)
    (uid : Int) (recipient subject body : String) (atts : List Attachment)
    (h : get_user_config key store uid = none ∨
      (get_user_config key store uid).map UserConfig.smtp_server = some "") :
    send_email smtp key store stats uid recipient subject body atts =
      (.error .notConfigured, stats) := by
  unfold send_email
  cases hc : get_user_config key store uid with
  | none => rfl
  | some cfg =>
    rcases h with h | h
    · rw [hc] at h
      exact Option.noConfusion h
    · rw [hc] at h
      simp only [Option.map_some', Option.some.injEq] at h
      simp [h]

theorem c3_witness :
    (get_user_config 1 [] 42 = none ∨
      (get_user_config 1 [] 42).map UserConfig.smtp_server = some "") ∧
    send_email .delivered 1 [] stats0 42 "b@example.com" "Hi" "body" [] =
      (.error .notConfigured, stats0) :=
  ⟨Or.inl rfl, c3_not_configured_guard .delivered 1 [] stats0 42
    "b@example.com" "Hi" "body" [] (Or.inl rfl)⟩

/-- Claim C6: a successful send_email call increments the emails_sent
    counter exactly once, and a failing call (not configured, connect
    failure or authentication failure) leaves the stats unchanged. -/
theorem c6_emails_sent_counter (smtp : SmtpOutcome) (key : Nat)
    (store : List (Int × RawConfig)) (stats : String → Option Nat)
    (uid : Int) (recipient subject body : String) (atts : List Attachment) :
    ((send_email smtp key store stats uid recipient subject body atts).1.isOk
        = true →
      readStat (send_email smtp key store stats uid recipient subject
          body atts).2 "emails_sent" = readStat stats "emails_sent" + 1) ∧
    ((send_email smtp key store stats uid recipient subject body atts).1.isOk
        = false →
      (send_email smtp key store stats uid recipient subject body atts).2 =
        stats) := by
  unfold send_email
  cases hc : get_user_config key store uid with
  | none => exact ⟨(fun h => nomatch h), fun _ => rfl⟩
  | some cfg =>
    by_cases hs : cfg.smtp_server = "" <;> cases smtp <;>
      simp [hs, Except.toBool, track_stat, redisIncrOp, redisIncr,
        readStat, statLookup]

theorem c6_witness :
    (send_email .delivered 1 [(5, rawConfigured)] stats0 5 "b@example.com"
        "Hi" "body" []).1.isOk = true ∧
    readStat (send_email .delivered 1 [(5, rawConfigured)] stats0 5
        "b@example.com" "Hi" "body" []).2 "emails_sent" =
      readStat stats0 "emails_sent" + 1 :=
  ⟨rfl, (c6_emails_sent_counter .delivered 1 [(5, rawConfigured)] stats0 5
    "b@example.com" "Hi" "body" []).1 rfl⟩

/-- Claim C1 concerns a missing check: MAX_ATTACHMENT_SIZE is declared but
    send_email never consults it.  At the concrete failing input — a
    configured user sending one attachment of MAX_ATTACHMENT_SIZE + 1
    bytes — the call is not rejected: it composes the message with the
    oversized attachment and the send succeeds. -/
theorem c1_oversized_attachment_not_rejected :
    MAX_ATTACHMENT_SIZE <
      attachmentsTotalSize [⟨"big.bin", MAX_ATTACHMENT_SIZE + 1⟩] ∧
    ∃ msg,
      (send_email .delivered 1 [(5, rawConfigured)] stats0 5 "b@example.com"
          "Hi" "body" [⟨"big.bin", MAX_ATTACHMENT_SIZE + 1⟩]).1 = .ok msg ∧
      msg.attachmentParts = [⟨"big.bin", MAX_ATTACHMENT_SIZE + 1⟩] := by
  refine ⟨by simp [MAX_ATTACHMENT_SIZE, attachmentsTotalSize],
    ⟨some "a@example.com", "b@example.com", "Hi", "body",
      [⟨"big.bin", MAX_ATTACHMENT_SIZE + 1⟩]⟩, rfl, rfl⟩

/-- Claim C4: starting from Idle and driving the Conversation State
    Machine through the six well-formed inputs (smtp server, valid smtp
    port, imap server, valid imap port, email, password) always commits a
    Config Store entry for the user that reads back with mode configured,
    deletes the PendingSetup record and returns the user to Idle. -/
theorem c4_happy_path_configures (key : Nat) (uid : Int)
    (store : List (Int × RawConfig))
    (srv1 port1 srv2 port2 emailAddr pw : String) (n1 n2 : Int)
    (h1 : parsePort port1 = some n1) (h2 : parsePort port2 = some n2) :
    (runInputs key uid (startConfigure ⟨.idle, none, store⟩)
        [srv1, port1, srv2, port2, emailAddr, pw]).conv = .idle ∧
    (runInputs key uid (startConfigure ⟨.idle, none, store⟩)
        [srv1, port1, srv2, port2, emailAddr, pw]).pending = none ∧
    ∃ cfg,
      get_user_config key (runInputs key uid (startConfigure
          ⟨.idle, none, store⟩) [srv1, port1, srv2, port2, emailAddr,
          pw]).store uid = some cfg ∧
      cfg.mode = "configured" := by
  have t1 := parsePort_toInt h1
  have t2 := parsePort_toInt h2
  refine ⟨?_, ?_, ⟨srv1, n1, srv2, n2, some emailAddr, some pw,
    "configured"⟩, ?_, rfl⟩
  · simp [runInputs, startConfigure, smStep, h1, h2]
  · simp [runInputs, startConfigure, smStep, h1, h2]
  · simp [runInputs, startConfigure, smStep, h1, h2, put_config,
      get_user_config, lookupRaw, getUserConfigCore, parseStoredInt, t1, t2,
      decryptField, decrypt_data, encrypt_data, fernetDecrypt, fernetEncrypt]
    rfl

theorem c4_witness :
    (parsePort "587" = some 587 ∧ parsePort "993" = some 993) ∧
    ((runInputs 1 42 (startConfigure ⟨.idle, none, []⟩)
        ["smtp.example.com", "587", "imap.example.com", "993",
         "a@example.com", "secret"]).conv = .idle ∧
     (runInputs 1 42 (startConfigure ⟨.idle, none, []⟩)
        ["smtp.example.com", "587", "imap.example.com", "993",
         "a@example.com", "secret"]).pending = none ∧
     ∃ cfg,
       get_user_config 1 (runInputs 1 42 (startConfigure ⟨.idle, none, []⟩)
          ["smtp.example.com", "587", "imap.example.com", "993",
           "a@example.com", "secret"]).store 42 = some cfg ∧
       cfg.mode = "configured") :=
  ⟨⟨rfl, rfl⟩, c4_happy_path_configures 1 42 [] "smtp.example.com" "587"
    "imap.example.com" "993" "a@example.com" "secret" 587 993 rfl rfl⟩

end MailBot
